import Mathlib

/-!
# Verification development for the proPACE dispatch server

Shallow embedding of the proPACE repository (a websocket chat-dispatch
server, `server.py`, together with its reply-path modules `Responses.py`,
`Carter.py`, `News.py`, `Weather.py`).

External HTTP collaborators (the Carter chat-completion API, the Wolfram
module, the weather and news feeds) and file IO are modelled as oracle
parameters: a call that can raise a Python exception is an
`Except Err _` value, and absence of any `try/except` in the source is
mirrored by plain monadic bind (the error propagates).

Strings are Lean `String`s; Python `str.replace` is embedded as
`replaceAll` below (non-overlapping left-to-right replacement).
-/

namespace PACE

/-- Abstract error raised by an external collaborator or by file IO. -/
inductive Err where
  | network : Err
  | io : Err
deriving DecidableEq, Repr

/-- One trigger object of a Carter chat-completion response:
`response['triggers'][i]` with its `'type'` field. -/
structure Trigger where
  ttype : String
deriving DecidableEq, Repr

/-- A parsed Carter chat-completion response: `output.text` is always
present; `triggers` is `none` when the JSON has no `triggers` field
(accessing it then raises, which the source catches). -/
structure CarterResponse where
  output_text : String
  triggers : Option (List Trigger)
deriving DecidableEq, Repr

/-- The tuple returned by `Weather.getWeather()`:
`(city, weather, temp, windchill)`, temperatures as (exact) rationals
standing for the Python floats. -/
structure WeatherData where
  city : String
  weather : String
  temp : ℚ
  windchill : ℚ
deriving DecidableEq, Repr

/-- Python `int()` on a float/rational: truncation toward zero. -/
def pyInt (q : ℚ) : ℤ := q.num.tdiv q.den

/-- Worker for `replaceAll`, on character lists.  With `skip = 0`: at each
position, if the pattern is a prefix, emit the replacement and skip the
rest of the matched pattern (via the `skip` counter); otherwise keep the
character and continue.  Left-to-right, non-overlapping — the semantics of
Python `str.replace`.  Structural recursion on the string. -/
def replaceAllGo (p r : List Char) : Nat → List Char → List Char
  | _, [] => []
  | Nat.succ skip, _ :: rest => replaceAllGo p r skip rest
  | 0, c :: rest =>
    if p.isPrefixOf (c :: rest) then
      r ++ replaceAllGo p r (p.length - 1) rest
    else
      c :: replaceAllGo p r 0 rest

/-- Python `s.replace(p, r)` for a nonempty pattern `p` (every pattern in
this code base is a nonempty literal; the empty-pattern case never occurs
and is mapped to the identity). -/
def replaceAll (p r s : String) : String :=
  if p.toList = [] then s
  else ⟨replaceAllGo p.toList r.toList 0 s.toList⟩

/-- `Carter.parseResponse(response)`: reads `output.text`, tries
`triggers[0].type` (any failure yields the string `"None"`), and on a
`"Weather Request"` intent substitutes the four weather placeholders with
the values from the weather collaborator; otherwise returns the text
unchanged.  The weather collaborator result is passed in as `wd`. -/
def parseResponse (response : CarterResponse) (wd : WeatherData) : String :=
  let agent_response_text := response.output_text
  let agent_response_intent :=
    match response.triggers with
    | some (t :: _) => t.ttype
    | _ => "None"
  if agent_response_intent = "Weather Request" then
    replaceAll "$wind_chill$" (toString (pyInt wd.windchill))
      (replaceAll "$real_temp$" (toString (pyInt wd.temp))
        (replaceAll "$weather$" wd.weather
          (replaceAll "$city$" wd.city agent_response_text)))
  else
    agent_response_text

/-- The external collaborators used by `Responses.generateResponse`:
`Carter.getCarterResponse` and `Wolfram.getWolframResponse`, both plain
HTTP calls that may raise. -/
structure Collab where
  getCarter : String → Except Err CarterResponse
  getWolfram : String → Except Err (Option String)

/-- `Responses.generateResponse(text)` as the source has it today: calls
the Carter collaborator, then the Wolfram collaborator, and returns
`carterResponse['output']['text']` unchanged — every intent branch
(weather, time, news, Wolfram) in the source is commented out, so the
Wolfram result is bound and then discarded. -/
def generateResponse (env : Collab) (text : String) : Except Err String := do
  let carterResponse ← env.getCarter text
  let _wolframResponse ← env.getWolfram text
  let agent_response_text := carterResponse.output_text
  pure agent_response_text

/-- `News.generateResponse()` given the fetched entry titles: folds
`response = response + title + ". "` over the entries. -/
def newsGenerateResponse (titles : List String) : String :=
  titles.foldl (fun response title => response ++ title ++ ". ") ""

/-! ## The dispatch server (`server.py`)

The websocket library is abstracted as in the spec: a Session Registry
(the list of connected client ids, in connection order) plus the three
callbacks `new_client`, `client_left`, `message_received`.  A frame is one
text payload handed to the transport for one destination session; its
`kind` records which library call produced it (`send_message` to a single
client, or `send_message_to_all`). -/

/-- Which send primitive of the websocket library emitted a frame. -/
inductive FrameKind where
  | greet : FrameKind
  | broadcast : FrameKind
deriving DecidableEq, Repr

/-- One text frame handed to the transport: destination session id and
payload. -/
structure Frame where
  kind : FrameKind
  dest : Nat
  payload : String
deriving DecidableEq, Repr

/-- The greeting string composed in `new_client`: a literal f-string,
depending on whether `allSubsystems == workingSubsystems`
(`brokenSubsystems` stands for the rendering of the Python set in the
failing branch). -/
def greeting (subsysOk : Bool) (brokenSubsystems : String) : String :=
  if subsysOk then " $$ All subsystems are working!"
  else " $$ Subsystems: " ++ brokenSubsystems ++ " are not working!"

/-- `News.writeJSON()`: fetches the news feed (building the JSON list),
then writes the Desktop snapshot file, then the Big Display snapshot
file.  Each step is an oracle that may raise; there is no `try/except`,
so the first failure aborts the whole call. -/
def writeJSON (fetchNews : Except Err (List String))
    (writeDesktop writeBigDisplay : Except Err Unit) : Except Err Unit := do
  let _news ← fetchNews
  let _ ← writeDesktop
  let _ ← writeBigDisplay
  pure ()

/-- `new_client(client, server)`: first calls `News.writeJSON()`
(unguarded — its failure propagates), then sends the subsystem-status
greeting to the new client alone via `server.send_message`. -/
def new_client (newsWriteResult : Except Err Unit) (clientId : Nat)
    (subsysOk : Bool) (brokenSubsystems : String) : Except Err (List Frame) := do
  let _ ← newsWriteResult
  pure [⟨FrameKind.greet, clientId, greeting subsysOk brokenSubsystems⟩]

/-- `message_received(client, server, message)`: calls
`Responses.generateResponse(message)` — unguarded, so a reply-generator
exception propagates and nothing is sent — then broadcasts
`f"{message}$${generatedMessage}"` to every session in the registry via
`server.send_message_to_all`. -/
def message_received (gen : String → Except Err String) (registry : List Nat)
    (message : String) : Except Err (List Frame) := do
  let generatedMessage ← gen message
  pure (registry.map fun d =>
    ⟨FrameKind.broadcast, d, message ++ "$$" ++ generatedMessage⟩)

/-- External events driving the server loop. -/
inductive Event where
  | connect (id : Nat)
  | disconnect (id : Nat)
  | message (id : Nat) (text : String)
deriving DecidableEq, Repr

/-- Fixed configuration of one server run: the reply generator (wrapping
the Carter/Wolfram collaborators), the outcome of `News.writeJSON`, and
the subsystem status that determines the greeting text. -/
structure ServerConfig where
  gen : String → Except Err String
  newsWrite : Except Err Unit
  subsysOk : Bool
  brokenSubsystems : String

/-- One step of the dispatch loop: the registry update performed by the
websocket library (add on connect, erase on disconnect) together with the
frames emitted by the corresponding callback.  A callback that raises
emits no frames (the library thread swallows the exception; nothing was
sent). -/
def step (cfg : ServerConfig) (registry : List Nat) : Event → List Nat × List Frame
  | .connect id =>
    (registry ++ [id],
      match new_client cfg.newsWrite id cfg.subsysOk cfg.brokenSubsystems with
      | .ok frames => frames
      | .error _ => [])
  | .disconnect id => (registry.erase id, [])
  | .message _ text =>
    (registry,
      match message_received cfg.gen registry text with
      | .ok frames => frames
      | .error _ => [])

/-- Run the dispatch loop over a sequence of events, accumulating the
emitted frames in order. -/
def run (cfg : ServerConfig) : List Nat → List Event → List Nat × List Frame
  | registry, [] => (registry, [])
  | registry, e :: evs =>
    let s := step cfg registry e
    let rest := run cfg s.1 evs
    (rest.1, s.2 ++ rest.2)

/-- Does the character-list pattern `p` occur (contiguously) anywhere in
`s`?  Executable companion of substring occurrence. -/
def occursIn (p : List Char) : List Char → Bool
  | [] => p.isPrefixOf []
  | c :: rest => p.isPrefixOf (c :: rest) || occursIn p rest

/-- The four placeholder tokens that `Carter.parseResponse` substitutes
on a `"Weather Request"` intent. -/
def weatherPlaceholders : List String :=
  ["$city$", "$weather$", "$real_temp$", "$wind_chill$"]

/-- Checker for the tail of the time pattern: `\d{1,2}:\d{2} (AM|PM)`. -/
def isClockString : List Char → Bool
  | [h, ':', m1, m2, ' ', a, 'M'] =>
    h.isDigit && m1.isDigit && m2.isDigit && (a = 'A' || a = 'P')
  | [h1, h2, ':', m1, m2, ' ', a, 'M'] =>
    h1.isDigit && h2.isDigit && m1.isDigit && m2.isDigit && (a = 'A' || a = 'P')
  | _ => false

/-- Checker for the full regular expression
`It is \d{1,2}:\d{2} (AM|PM)` from the spec's time-request property. -/
def matchesTimePattern (s : String) : Bool :=
  match s.toList with
  | 'I' :: 't' :: ' ' :: 'i' :: 's' :: ' ' :: rest => isClockString rest
  | _ => false

/-! ## Concrete collaborator fixtures used by witnesses and
counterexamples -/

/-- A chat-completion response carrying a time-intent trigger and the
base reply text `"It is $time"`. -/
def timeTriggerResponse : CarterResponse :=
  ⟨"It is $time", some [⟨"time-request"⟩]⟩

/-- Collaborators whose chat completion returns `timeTriggerResponse`. -/
def timeEnv : Collab :=
  ⟨fun _ => .ok timeTriggerResponse, fun _ => .ok none⟩

/-- The weather base reply text from the spec's weather property. -/
def weatherBase : String :=
  "$city$ is $weather$ at $real_temp$ (feels $wind_chill$)"

/-- A chat-completion response carrying a weather-intent trigger and the
base reply text `weatherBase`. -/
def weatherTriggerResponse : CarterResponse :=
  ⟨weatherBase, some [⟨"Weather Request"⟩]⟩

/-- Collaborators whose chat completion returns
`weatherTriggerResponse`. -/
def weatherEnv : Collab :=
  ⟨fun _ => .ok weatherTriggerResponse, fun _ => .ok none⟩

/-- A chat-completion response carrying a news-intent trigger. -/
def newsTriggerResponse : CarterResponse :=
  ⟨"base", some [⟨"News request"⟩]⟩

/-- Collaborators whose chat completion returns `newsTriggerResponse`. -/
def newsEnv : Collab :=
  ⟨fun _ => .ok newsTriggerResponse, fun _ => .ok none⟩

end PACE

namespace PACE

example : replaceAll "$city$" "Chicago" "$city$ is nice" = "Chicago is nice" := by decide

example : matchesTimePattern "It is 7:05 PM" = true := by decide

example : matchesTimePattern "It is 11:30 AM" = true := by decide

example : matchesTimePattern "It is $time" = false := by decide

/-! ## Helper lemmas -/

/-- Unfolding `generateResponse` when both collaborator calls succeed. -/
theorem generateResponse_ok (env : Collab) (text : String)
    (c : CarterResponse) (w : Option String)
    (h1 : env.getCarter text = .ok c) (h2 : env.getWolfram text = .ok w) :
    generateResponse env text = .ok c.output_text := by
  simp only [generateResponse, h1, h2]
  rfl

/-- Unfolding `generateResponse` when the chat-completion call raises. -/
theorem generateResponse_carter_error (env : Collab) (text : String)
    (e : Err) (h1 : env.getCarter text = .error e) :
    generateResponse env text = .error e := by
  simp only [generateResponse, h1]
  rfl

/-- Unfolding `new_client` when `News.writeJSON` succeeded. -/
theorem new_client_ok (clientId : Nat) (subsysOk : Bool) (broken : String) :
    new_client (.ok ()) clientId subsysOk broken
      = .ok [⟨FrameKind.greet, clientId, greeting subsysOk broken⟩] := rfl

/-- Unfolding `new_client` when `News.writeJSON` raised. -/
theorem new_client_error (e : Err) (clientId : Nat) (subsysOk : Bool)
    (broken : String) :
    new_client (.error e) clientId subsysOk broken = .error e := rfl

/-- Unfolding `message_received` when the Reply Generator succeeds. -/
theorem message_received_ok (gen : String → Except Err String)
    (registry : List Nat) (text reply : String) (h : gen text = .ok reply) :
    message_received gen registry text
      = .ok (registry.map fun d =>
          ⟨FrameKind.broadcast, d, text ++ "$$" ++ reply⟩) := by
  simp only [message_received, h]
  rfl

/-- Unfolding `message_received` when the Reply Generator raises. -/
theorem message_received_error (gen : String → Except Err String)
    (registry : List Nat) (text : String) (e : Err)
    (h : gen text = .error e) :
    message_received gen registry text = .error e := by
  simp only [message_received, h]
  rfl

/-! ## Claims C5, C9, C3, C4, C6 — the reply path -/

/-- Claim C5 (confirmed): a collaborator response with no `triggers`
field makes the Reply Generator return the base reply text `output.text`
unchanged, with no error (assuming the collaborator calls themselves
succeed). -/
theorem C5_no_triggers_returns_base (env : Collab) (text : String)
    (c : CarterResponse) (w : Option String)
    (h1 : env.getCarter text = .ok c) (_h2 : c.triggers = none)
    (h3 : env.getWolfram text = .ok w) :
    generateResponse env text = .ok c.output_text :=
  generateResponse_ok env text c w h1 h3

/-- Witness for C5 at a concrete triggerless response. -/
theorem C5_no_triggers_returns_base_witness :
    generateResponse ⟨fun _ => .ok ⟨"hello there", none⟩, fun _ => .ok none⟩ "hi"
      = .ok "hello there" :=
  C5_no_triggers_returns_base
    ⟨fun _ => .ok ⟨"hello there", none⟩, fun _ => .ok none⟩ "hi"
    ⟨"hello there", none⟩ none rfl rfl rfl

/-- Claim C9 (confirmed, noninterference): the reply returned by
`Responses.generateResponse` does not depend on the Wolfram collaborator:
two runs whose chat completion agrees but whose (non-failing) Wolfram
results differ arbitrarily return the same reply, namely
`output.text` — the Wolfram result is computed and then discarded. -/
theorem C9_wolfram_result_discarded (envA envB : Collab) (text : String)
    (c : CarterResponse) (wA wB : Option String)
    (h1 : envA.getCarter text = .ok c) (h2 : envB.getCarter text = .ok c)
    (h3 : envA.getWolfram text = .ok wA) (h4 : envB.getWolfram text = .ok wB) :
    generateResponse envA text = generateResponse envB text ∧
      generateResponse envA text = .ok c.output_text := by
  rw [generateResponse_ok envA text c wA h1 h3,
    generateResponse_ok envB text c wB h2 h4]
  exact ⟨rfl, rfl⟩

/-- Witness for C9: two distinct Wolfram results, identical reply. -/
theorem C9_wolfram_result_discarded_witness :
    generateResponse ⟨fun _ => .ok ⟨"two", none⟩, fun _ => .ok (some "42")⟩ "1+1"
        = generateResponse ⟨fun _ => .ok ⟨"two", none⟩, fun _ => .ok none⟩ "1+1" ∧
      generateResponse ⟨fun _ => .ok ⟨"two", none⟩, fun _ => .ok (some "42")⟩ "1+1"
        = .ok "two" :=
  C9_wolfram_result_discarded
    ⟨fun _ => .ok ⟨"two", none⟩, fun _ => .ok (some "42")⟩
    ⟨fun _ => .ok ⟨"two", none⟩, fun _ => .ok none⟩
    "1+1" ⟨"two", none⟩ (some "42") none rfl rfl rfl rfl

/-- Claim C3 (counterexample): with a time-intent trigger and base text
`"It is $time"`, the Reply Generator used by the Dispatch Server returns
`"It is $time"` verbatim — the time placeholder is NOT substituted (all
intent handling in `Responses.generateResponse` is commented out), so the
output does not match `It is \d{1,2}:\d{2} (AM|PM)`. -/
theorem C3_time_not_substituted_cex :
    generateResponse timeEnv "What time is it?" = .ok "It is $time" ∧
      matchesTimePattern "It is $time" = false := by
  constructor
  · rfl
  · decide

/-- Claim C3 (amended): on a time-intent trigger the Reply Generator
returns the base reply text unchanged; no wall-clock substitution is
performed. -/
theorem C3_time_trigger_returns_base (env : Collab) (text : String)
    (c : CarterResponse) (w : Option String) (rest : List Trigger)
    (h1 : env.getCarter text = .ok c)
    (_h2 : c.triggers = some (⟨"time-request"⟩ :: rest))
    (h3 : env.getWolfram text = .ok w) :
    generateResponse env text = .ok c.output_text :=
  generateResponse_ok env text c w h1 h3

/-- Witness for the amended C3 at the concrete time fixture. -/
theorem C3_time_trigger_returns_base_witness :
    generateResponse timeEnv "What time is it?" = .ok "It is $time" :=
  C3_time_trigger_returns_base timeEnv "What time is it?"
    timeTriggerResponse none [] rfl rfl rfl

/-- Claim C4 (counterexample): with a weather-intent trigger, base text
`weatherBase` and weather values `("Chicago", "clear sky", 70.6, 68.2)`,
the Reply Generator used by the Dispatch Server returns the base text
verbatim, not `"Chicago is clear sky at 70 (feels 68)"` — weather
handling in `Responses.generateResponse` is commented out and
`Carter.parseResponse` is never called on the server's reply path. -/
theorem C4_weather_not_substituted_cex :
    generateResponse weatherEnv "What's the weather?" = .ok weatherBase ∧
      weatherBase ≠ "Chicago is clear sky at 70 (feels 68)" := by
  constructor
  · rfl
  · decide

/-- Claim C4 (amended): the weather substitution the claim describes
lives in `Carter.parseResponse`, which on those exact inputs yields
exactly `"Chicago is clear sky at 70 (feels 68)"` (temperatures truncated
to whole integers); but the Reply Generator the Dispatch Server actually
uses (`Responses.generateResponse`) returns the base text unchanged. -/
theorem C4_weather_substitution_in_carter_only :
    parseResponse weatherTriggerResponse ⟨"Chicago", "clear sky", 70.6, 68.2⟩
        = "Chicago is clear sky at 70 (feels 68)" ∧
      generateResponse weatherEnv "What's the weather?" = .ok weatherBase := by
  constructor
  · rw [show (70.6 : ℚ) = mkRat 706 10 by norm_num [mkRat, Rat.normalize],
      show (68.2 : ℚ) = mkRat 682 10 by norm_num [mkRat, Rat.normalize]]
    decide
  · rfl

/-- Claim C6 (counterexample): with a news-intent trigger, the Reply
Generator used by the Dispatch Server returns the base reply text (here
`"base"`) rather than the news headlines; moreover the news
collaborator's own `generateResponse`, when it is called at all, joins
titles with `". "` separators, not one per line. -/
theorem C6_news_not_substituted_cex :
    generateResponse newsEnv "any news?" = .ok "base" ∧
      "base" ≠ "Alpha" ++ "\n" ++ "Beta" ∧
      newsGenerateResponse ["Alpha", "Beta"] = "Alpha. Beta. " := by
  refine ⟨rfl, by decide, by decide⟩

/-- Claim C6 (amended): on a news-intent trigger the Reply Generator
returns the base reply text unchanged (news handling in
`Responses.generateResponse` is commented out); and `News.generateResponse`
concatenates headline titles separated by `". "` (with a trailing
`". "`), not one per line. -/
theorem C6_news_trigger_returns_base :
    (∀ (env : Collab) (text : String) (c : CarterResponse) (w : Option String)
        (rest : List Trigger),
      env.getCarter text = .ok c →
      c.triggers = some (⟨"News request"⟩ :: rest) →
      env.getWolfram text = .ok w →
      generateResponse env text = .ok c.output_text) ∧
    (∀ (titles : List String) (t : String),
      newsGenerateResponse (titles ++ [t]) = newsGenerateResponse titles ++ t ++ ". ") := by
  constructor
  · intro env text c w rest h1 _h2 h3
    exact generateResponse_ok env text c w h1 h3
  · intro titles t
    simp [newsGenerateResponse, List.foldl_append]

/-- Witness for the amended C6 at the concrete news fixture. -/
theorem C6_news_trigger_returns_base_witness :
    generateResponse newsEnv "any news?" = .ok "base" ∧
      newsGenerateResponse (["Alpha"] ++ ["Beta"])
        = newsGenerateResponse ["Alpha"] ++ "Beta" ++ ". " :=
  ⟨C6_news_trigger_returns_base.1 newsEnv "any news?"
      newsTriggerResponse none [] rfl rfl rfl,
    C6_news_trigger_returns_base.2 ["Alpha"] "Beta"⟩

/-! ## Claims C1 and C2 — the dispatch hot path -/

/-- Claim C1 (confirmed): when the Reply Generator succeeds,
`message_received` broadcasts exactly `text ++ "$$" ++ reply` — nothing
else — to every session currently in the registry, one frame per
session; in particular the sender (any member of the registry) receives
it exactly once. -/
theorem C1_broadcast_exactly_once (gen : String → Except Err String)
    (registry : List Nat) (text reply : String) (sender : Nat)
    (hgen : gen text = .ok reply) (hnd : registry.Nodup)
    (hs : sender ∈ registry) :
    message_received gen registry text
        = .ok (registry.map fun d =>
            ⟨FrameKind.broadcast, d, text ++ "$$" ++ reply⟩) ∧
      (registry.map fun d =>
          (⟨FrameKind.broadcast, d, text ++ "$$" ++ reply⟩ : Frame)).countP
        (fun f => f.dest == sender) = 1 ∧
      ∀ f ∈ registry.map fun d =>
          (⟨FrameKind.broadcast, d, text ++ "$$" ++ reply⟩ : Frame),
        f.payload = text ++ "$$" ++ reply ∧ f.kind = FrameKind.broadcast := by
  refine ⟨?_, ?_, ?_⟩
  · simp only [message_received, hgen]
    rfl
  · rw [List.countP_map]
    exact List.count_eq_one_of_mem hnd hs
  · intro f hf
    rcases List.mem_map.mp hf with ⟨d, _, rfl⟩
    exact ⟨rfl, rfl⟩

/-- Witness for C1 on a two-session registry, sender included. -/
theorem C1_broadcast_exactly_once_witness :
    message_received (fun _ => .ok "pong") [7, 9] "ping"
        = .ok ([7, 9].map fun d =>
            ⟨FrameKind.broadcast, d, "ping" ++ "$$" ++ "pong"⟩) ∧
      ([7, 9].map fun d =>
          (⟨FrameKind.broadcast, d, "ping" ++ "$$" ++ "pong"⟩ : Frame)).countP
        (fun f => f.dest == 9) = 1 ∧
      ∀ f ∈ [7, 9].map fun d =>
          (⟨FrameKind.broadcast, d, "ping" ++ "$$" ++ "pong"⟩ : Frame),
        f.payload = "ping" ++ "$$" ++ "pong" ∧ f.kind = FrameKind.broadcast :=
  C1_broadcast_exactly_once (fun _ => .ok "pong") [7, 9] "ping" "pong" 9
    rfl (by decide) (by decide)

/-- Claim C2 (counterexample): when the Reply Generator raises,
`message_received` propagates the exception and sends nothing at all —
no fallback, no echo; at the loop level the step emits zero frames, so
the sender gets no acknowledgment. -/
theorem C2_no_fallback_on_failure_cex :
    message_received (fun _ => .error Err.network) [0, 1] "hello"
        = .error Err.network ∧
      (step ⟨fun _ => .error Err.network, .ok (), true, ""⟩ [0, 1]
          (.message 0 "hello")).2 = [] :=
  ⟨rfl, rfl⟩

/-- Claim C2 (amended): if the Reply Generator fails on an inbound
message, the Dispatch Server broadcasts nothing for that message — the
exception propagates out of `message_received` and the exchange is
dropped silently (there is no fallback path in the source). -/
theorem C2_failure_drops_exchange (gen : String → Except Err String)
    (registry : List Nat) (text : String) (e : Err)
    (h : gen text = .error e) :
    message_received gen registry text = .error e := by
  simp only [message_received, h]
  rfl

/-- Witness for the amended C2 at a concrete failing generator. -/
theorem C2_failure_drops_exchange_witness :
    message_received (fun _ => .error Err.network) [3] "hi"
      = .error Err.network :=
  C2_failure_drops_exchange (fun _ => .error Err.network) [3] "hi"
    Err.network rfl

/-! ## Claim C8 — placeholder substitution is pure string replacement -/

/-- A pattern that occurs nowhere in the string is replaced nowhere:
`replaceAllGo` is the identity. -/
theorem replaceAllGo_of_not_occurs (p r : List Char) :
    ∀ s : List Char, occursIn p s = false → replaceAllGo p r 0 s = s := by
  intro s
  induction s with
  | nil => intro _; rfl
  | cons c rest ih =>
    intro h
    simp only [occursIn, Bool.or_eq_false_iff] at h
    simp only [replaceAllGo, h.1, Bool.false_eq_true, if_false]
    rw [ih h.2]

/-- String-level version: a pattern that occurs nowhere leaves the
string intact, character for character. -/
theorem replaceAll_of_not_occurs (p r s : String)
    (h : occursIn p.toList s.toList = false) : replaceAll p r s = s := by
  unfold replaceAll
  split
  · rfl
  · rw [replaceAllGo_of_not_occurs p.toList r.toList s.toList h]
    cases s
    rfl

/-- Claim C8 (confirmed): placeholder substitution in
`Carter.parseResponse` is pure string replacement and total — it returns
a string for every response and every enrichment, never an error; and a
base text whose placeholder tokens all lack a corresponding enrichment
value (i.e. none of the four substituted weather tokens occurs in it —
e.g. a text containing only `$time`) is returned intact, character for
character, whatever the enrichment values are. -/
theorem C8_unmatched_placeholders_intact (resp : CarterResponse)
    (wd : WeatherData)
    (h : ∀ p ∈ weatherPlaceholders,
      occursIn p.toList resp.output_text.toList = false) :
    parseResponse resp wd = resp.output_text := by
  have h1 := h "$city$" (by simp [weatherPlaceholders])
  have h2 := h "$weather$" (by simp [weatherPlaceholders])
  have h3 := h "$real_temp$" (by simp [weatherPlaceholders])
  have h4 := h "$wind_chill$" (by simp [weatherPlaceholders])
  simp only [parseResponse]
  split
  · rw [replaceAll_of_not_occurs _ _ _ h1, replaceAll_of_not_occurs _ _ _ h2,
      replaceAll_of_not_occurs _ _ _ h3, replaceAll_of_not_occurs _ _ _ h4]
  · rfl

/-- Witness for C8: a weather-triggered response whose base text holds
only the unsupplied `$time` placeholder passes through unchanged. -/
theorem C8_unmatched_placeholders_intact_witness :
    parseResponse ⟨"It is $time", some [⟨"Weather Request"⟩]⟩
      ⟨"Chicago", "clear sky", mkRat 706 10, mkRat 682 10⟩ = "It is $time" :=
  C8_unmatched_placeholders_intact
    ⟨"It is $time", some [⟨"Weather Request"⟩]⟩
    ⟨"Chicago", "clear sky", mkRat 706 10, mkRat 682 10⟩
    (by decide)

/-! ## Claim C10 — news snapshot failure blocks the greeting -/

/-- Claim C10 (confirmed): `new_client` runs `News.writeJSON()` — fetch
the feed, write the Desktop snapshot, write the Big Display snapshot, in
that order — before composing or sending the greeting, with no guard; so
if the fetch or either file write fails, `new_client` raises and the
greeting is never sent to the new client. -/
theorem C10_news_failure_blocks_greeting
    (fetchNews : Except Err (List String))
    (writeDesktop writeBigDisplay : Except Err Unit)
    (clientId : Nat) (subsysOk : Bool) (brokenSubsystems : String)
    (h : (∃ e, fetchNews = .error e) ∨ (∃ e, writeDesktop = .error e) ∨
      (∃ e, writeBigDisplay = .error e)) :
    ∃ e, new_client (writeJSON fetchNews writeDesktop writeBigDisplay)
      clientId subsysOk brokenSubsystems = .error e := by
  rcases h with ⟨e, rfl⟩ | ⟨e, rfl⟩ | ⟨e, rfl⟩
  · exact ⟨e, rfl⟩
  · cases fetchNews with
    | error e' => exact ⟨e', rfl⟩
    | ok _ => exact ⟨e, rfl⟩
  · cases fetchNews with
    | error e' => exact ⟨e', rfl⟩
    | ok _ =>
      cases writeDesktop with
      | error e' => exact ⟨e', rfl⟩
      | ok _ => exact ⟨e, rfl⟩

/-- Witness for C10: the Desktop snapshot write fails, so no greeting. -/
theorem C10_news_failure_blocks_greeting_witness :
    ∃ e, new_client (writeJSON (.ok ["headline"]) (.error Err.io) (.ok ()))
      3 true "" = .error e :=
  C10_news_failure_blocks_greeting (.ok ["headline"]) (.error Err.io)
    (.ok ()) 3 true "" (Or.inr (Or.inl ⟨Err.io, rfl⟩))

/-! ## Claim C7 — the greeting on a new connection -/

/-- Unfolding `run` on the empty event list. -/
theorem run_nil (cfg : ServerConfig) (reg : List Nat) :
    run cfg reg [] = (reg, []) := rfl

/-- Unfolding `run` on a cons of events. -/
theorem run_cons (cfg : ServerConfig) (reg : List Nat) (e : Event)
    (evs : List Event) :
    run cfg reg (e :: evs)
      = ((run cfg (step cfg reg e).1 evs).1,
        (step cfg reg e).2 ++ (run cfg (step cfg reg e).1 evs).2) := rfl

/-- The registry reached by a run over `l1 ++ l2` is the registry of the
run over `l2` started from the registry reached after `l1`. -/
theorem run_append_fst (cfg : ServerConfig) (l1 l2 : List Event) :
    ∀ reg : List Nat,
      (run cfg reg (l1 ++ l2)).1 = (run cfg (run cfg reg l1).1 l2).1 := by
  induction l1 with
  | nil => intro reg; rfl
  | cons e l1 ih =>
    intro reg
    rw [List.cons_append, run_cons, run_cons, ih]

/-- The frames emitted over `l1 ++ l2` are those of `l1` followed by
those of `l2` run from the intermediate registry. -/
theorem run_append_snd (cfg : ServerConfig) (l1 l2 : List Event) :
    ∀ reg : List Nat,
      (run cfg reg (l1 ++ l2)).2
        = (run cfg reg l1).2 ++ (run cfg (run cfg reg l1).1 l2).2 := by
  induction l1 with
  | nil => intro reg; rfl
  | cons e l1 ih =>
    intro reg
    rw [List.cons_append, run_cons, run_cons, ih, List.append_assoc]

/-- `step` on a connect event when `News.writeJSON` succeeds: register
the session and send it the greeting, alone. -/
theorem step_connect_ok (cfg : ServerConfig) (reg : List Nat) (id : Nat)
    (hnw : cfg.newsWrite = .ok ()) :
    step cfg reg (.connect id)
      = (reg ++ [id],
        [⟨FrameKind.greet, id, greeting cfg.subsysOk cfg.brokenSubsystems⟩]) := by
  simp only [step, hnw, new_client_ok]

/-- A session present after one step was present before, unless this
very event connected it. -/
theorem step_mem_registry (cfg : ServerConfig) (reg : List Nat)
    (e : Event) (x : Nat) (hx : x ∈ (step cfg reg e).1) :
    x ∈ reg ∨ e = .connect x := by
  cases e with
  | connect id =>
    rcases List.mem_append.mp hx with h | h
    · exact Or.inl h
    · simp only [List.mem_singleton] at h
      exact Or.inr (by rw [h])
  | disconnect id => exact Or.inl (List.mem_of_mem_erase hx)
  | message id text => exact Or.inl hx

/-- Every frame emitted by one step is addressed to a session that was
already in the registry, unless this very event connected it. -/
theorem step_frames_dest (cfg : ServerConfig) (reg : List Nat)
    (e : Event) (f : Frame) (hf : f ∈ (step cfg reg e).2) :
    f.dest ∈ reg ∨ e = .connect f.dest := by
  cases e with
  | connect id =>
    cases hnw : cfg.newsWrite with
    | ok u =>
      cases u
      rw [step_connect_ok cfg reg id hnw] at hf
      simp only [List.mem_singleton] at hf
      subst hf
      exact Or.inr rfl
    | error err =>
      simp only [step, hnw, new_client_error] at hf
      exact absurd hf (List.not_mem_nil f)
  | disconnect id => simp [step] at hf
  | message id text =>
    cases hg : cfg.gen text with
    | ok reply =>
      simp only [step, message_received_ok cfg.gen reg text reply hg] at hf
      rcases List.mem_map.mp hf with ⟨d, hd, rfl⟩
      exact Or.inl hd
    | error err =>
      simp only [step, message_received_error cfg.gen reg text err hg] at hf
      exact absurd hf (List.not_mem_nil f)

/-- A greet-kind frame is only ever emitted by the connect event of its
own destination. -/
theorem step_greet_frames (cfg : ServerConfig) (reg : List Nat)
    (e : Event) (f : Frame) (hf : f ∈ (step cfg reg e).2)
    (hk : f.kind = FrameKind.greet) : e = .connect f.dest := by
  cases e with
  | connect id =>
    cases hnw : cfg.newsWrite with
    | ok u =>
      cases u
      rw [step_connect_ok cfg reg id hnw] at hf
      simp only [List.mem_singleton] at hf
      subst hf
      rfl
    | error err =>
      simp only [step, hnw, new_client_error] at hf
      exact absurd hf (List.not_mem_nil f)
  | disconnect id => simp [step] at hf
  | message id text =>
    cases hg : cfg.gen text with
    | ok reply =>
      simp only [step, message_received_ok cfg.gen reg text reply hg] at hf
      rcases List.mem_map.mp hf with ⟨d, hd, rfl⟩
      simp at hk
    | error err =>
      simp only [step, message_received_error cfg.gen reg text err hg] at hf
      exact absurd hf (List.not_mem_nil f)

/-- Over a whole run, every frame goes to a session of the initial
registry or to one connected during the run. -/
theorem run_frames_dest (cfg : ServerConfig) (evs : List Event) :
    ∀ (reg : List Nat) (f : Frame), f ∈ (run cfg reg evs).2 →
      f.dest ∈ reg ∨ Event.connect f.dest ∈ evs := by
  induction evs with
  | nil => intro reg f hf; simp [run_nil] at hf
  | cons e evs ih =>
    intro reg f hf
    rw [run_cons] at hf
    rcases List.mem_append.mp hf with h | h
    · rcases step_frames_dest cfg reg e f h with h' | h'
      · exact Or.inl h'
      · exact Or.inr (by rw [h']; exact List.mem_cons_self _ _)
    · rcases ih (step cfg reg e).1 f h with h' | h'
      · rcases step_mem_registry cfg reg e f.dest h' with h'' | h''
        · exact Or.inl h''
        · exact Or.inr (by rw [h'']; exact List.mem_cons_self _ _)
      · exact Or.inr (List.mem_cons_of_mem _ h')

/-- Over a whole run, a greet-kind frame to session `d` is only emitted
if `connect d` is among the events. -/
theorem run_greet_frames (cfg : ServerConfig) (evs : List Event) :
    ∀ (reg : List Nat) (f : Frame), f ∈ (run cfg reg evs).2 →
      f.kind = FrameKind.greet → Event.connect f.dest ∈ evs := by
  induction evs with
  | nil => intro reg f hf _; simp [run_nil] at hf
  | cons e evs ih =>
    intro reg f hf hk
    rw [run_cons] at hf
    rcases List.mem_append.mp hf with h | h
    · rw [← step_greet_frames cfg reg e f h hk]
      exact List.mem_cons_self _ _
    · exact List.mem_cons_of_mem _ (ih (step cfg reg e).1 f h hk)

/-- Claim C7 (counterexample): the greeting actually sent to a new
client is ` $$ All subsystems are working!` — it begins with a space,
then the delimiter — whereas every string of the claimed form
`"<delimiter> " + openerText` (delimiter `"$$"`) begins with the
delimiter itself.  So the greeting is not of the claimed form for any
opener text. -/
theorem C7_greeting_format_cex :
    new_client (.ok ()) 5 true "x"
        = .ok [⟨FrameKind.greet, 5, greeting true "x"⟩] ∧
      ¬ ∃ t : String, greeting true "x" = "$$ " ++ t := by
  refine ⟨rfl, ?_⟩
  rintro ⟨t, ht⟩
  have h2 := congrArg (fun s : String => s.toList.take 2) ht
  have hL : (greeting true "x").toList.take 2 = [' ', '$'] := by decide
  have hR : ("$$ " ++ t).toList.take 2 = ['$', '$'] := by
    simp [String.toList, String.data_append, List.take]
  simp only [hL, hR] at h2
  exact absurd (List.head_eq_of_cons_eq h2) (by decide)

/-- Claim C7 (amended): on a new connection (with `News.writeJSON`
succeeding) the server sends exactly one greeting frame,
`" $$ " ++ openerText` — a space, the two-character delimiter, a space,
then the status text — to the newly connected session alone; it is the
first frame that session receives, before any broadcast frame; and no
greeting is ever sent to an already-connected session (every other greet
frame in the run belongs to some other session's own connect event). -/
theorem C7_greeting_first_and_unique (cfg : ServerConfig)
    (reg0 : List Nat) (evs1 evs2 : List Event) (id : Nat)
    (hnw : cfg.newsWrite = .ok ()) (hid : id ∉ reg0)
    (h1 : Event.connect id ∉ evs1) (h2 : Event.connect id ∉ evs2) :
    ((run cfg reg0 (evs1 ++ Event.connect id :: evs2)).2.filter
        (fun f => f.dest == id)).head?
        = some ⟨FrameKind.greet, id,
            greeting cfg.subsysOk cfg.brokenSubsystems⟩ ∧
      (run cfg reg0 (evs1 ++ Event.connect id :: evs2)).2.countP
        (fun f => f.kind == FrameKind.greet && f.dest == id) = 1 ∧
      ∀ f ∈ (run cfg reg0 (evs1 ++ Event.connect id :: evs2)).2,
        f.kind = FrameKind.greet → f.dest ≠ id →
          Event.connect f.dest ∈ evs1 ∨ Event.connect f.dest ∈ evs2 := by
  have hdecomp :
      (run cfg reg0 (evs1 ++ Event.connect id :: evs2)).2
        = (run cfg reg0 evs1).2
          ++ ⟨FrameKind.greet, id, greeting cfg.subsysOk cfg.brokenSubsystems⟩
            :: (run cfg ((run cfg reg0 evs1).1 ++ [id]) evs2).2 := by
    rw [run_append_snd, run_cons, step_connect_ok cfg _ id hnw]
    rfl
  have hF1 : ∀ f ∈ (run cfg reg0 evs1).2, f.dest ≠ id := by
    intro f hf hfd
    rcases run_frames_dest cfg evs1 reg0 f hf with h | h
    · exact hid (hfd ▸ h)
    · exact h1 (hfd ▸ h)
  have hF2 : ∀ f ∈ (run cfg ((run cfg reg0 evs1).1 ++ [id]) evs2).2,
      f.kind = FrameKind.greet → f.dest ≠ id := by
    intro f hf hk hfd
    exact h2 (hfd ▸ run_greet_frames cfg evs2 _ f hf hk)
  refine ⟨?_, ?_, ?_⟩
  · rw [hdecomp, List.filter_append]
    have hnil : (run cfg reg0 evs1).2.filter (fun f => f.dest == id) = [] :=
      List.filter_eq_nil_iff.mpr fun f hf => by
        simp only [beq_eq_false_iff_ne.mpr (hF1 f hf), Bool.false_eq_true,
          not_false_eq_true]
    rw [hnil, List.nil_append, List.filter_cons_of_pos (by simp)]
    rfl
  · rw [hdecomp, List.countP_append, List.countP_cons]
    have hz1 : (run cfg reg0 evs1).2.countP
        (fun f => f.kind == FrameKind.greet && f.dest == id) = 0 :=
      List.countP_eq_zero.mpr fun f hf => by
        simp [beq_eq_false_iff_ne.mpr (hF1 f hf)]
    have hz2 : (run cfg ((run cfg reg0 evs1).1 ++ [id]) evs2).2.countP
        (fun f => f.kind == FrameKind.greet && f.dest == id) = 0 :=
      List.countP_eq_zero.mpr fun f hf => by
        intro hp
        simp only [Bool.and_eq_true, beq_iff_eq] at hp
        exact hF2 f hf hp.1 hp.2
    rw [hz1, hz2]
    simp
  · intro f hf hk hfd
    rw [hdecomp] at hf
    rcases List.mem_append.mp hf with h | h
    · exact Or.inl (run_greet_frames cfg evs1 reg0 f h hk)
    · rcases List.mem_cons.mp h with h | h
      · exact absurd (by rw [h]) hfd
      · exact Or.inr (run_greet_frames cfg evs2 _ f h hk)

/-- Witness for the amended C7: a second client connects while client 0
is already connected and chatting. -/
theorem C7_greeting_first_and_unique_witness :
    ((run ⟨fun _ => .ok "re", .ok (), true, "x"⟩ []
        ([Event.connect 0, Event.message 0 "hi"]
          ++ Event.connect 1 :: [Event.message 0 "yo"])).2.filter
        (fun f => f.dest == 1)).head?
        = some ⟨FrameKind.greet, 1, greeting true "x"⟩ ∧
      (run ⟨fun _ => .ok "re", .ok (), true, "x"⟩ []
        ([Event.connect 0, Event.message 0 "hi"]
          ++ Event.connect 1 :: [Event.message 0 "yo"])).2.countP
        (fun f => f.kind == FrameKind.greet && f.dest == 1) = 1 ∧
      ∀ f ∈ (run ⟨fun _ => .ok "re", .ok (), true, "x"⟩ []
          ([Event.connect 0, Event.message 0 "hi"]
            ++ Event.connect 1 :: [Event.message 0 "yo"])).2,
        f.kind = FrameKind.greet → f.dest ≠ 1 →
          Event.connect f.dest ∈ [Event.connect 0, Event.message 0 "hi"]
            ∨ Event.connect f.dest ∈ [Event.message 0 "yo"] :=
  C7_greeting_first_and_unique ⟨fun _ => .ok "re", .ok (), true, "x"⟩ []
    [Event.connect 0, Event.message 0 "hi"] [Event.message 0 "yo"] 1
    rfl (by decide) (by decide) (by decide)

end PACE
